import Mathlib

/-!
Verification of the record-sink adapter in
`src/elasticsearch/elasticsearch.go` (kafka-elasticsearch-injector).

The sink derives, per record, a target index name and a document id from
static configuration, builds a bulk request, and submits it to the
datastore.  Network effects (the bulk call, the ping, client creation)
are modelled as explicit arguments; global mutable state (the shared
`esClient` handle) is modelled by explicit state passing.
-/

namespace KafkaESInjector

/-- Errors surfaced by the sink.  `FieldNotFound` comes from the record
model's field lookup; `WriteError` models a transport-level failure of
the bulk call; `ItemFailure` models the error built from the first
failed item of a bulk response (`errors.New(fmt.Sprintf("%v", f.Error))`). -/
inductive Err where
  | FieldNotFound (field : String)
  | WriteError (msg : String)
  | ItemFailure (msg : String)
  deriving DecidableEq, Repr

/-- Modelled from the spec: the Record model (`src/models`, not among the
provided sources).  "a structured message with a named source
topic/category, a timestamp, a set of named fields, and an identifier". -/
structure Record where
  topic : String
  /-- the formatted timestamp string exposed by `FormatTimestamp()` -/
  timestamp : String
  /-- the default identifier exposed by `GetId()` -/
  id : String
  /-- the named fields, looked up by `GetValueForField` -/
  fields : List (String × String)
  deriving DecidableEq, Repr

/-- Modelled from the spec: `Record.GetValueForField` — "per-field string
value lookup (fails with `FieldNotFound` if absent)". -/
def Record.GetValueForField (r : Record) (field : String) : Except Err String :=
  match r.fields.lookup field with
  | some v => Except.ok v
  | none => Except.error (Err.FieldNotFound field)

/-- Modelled from the spec: `Record.FormatTimestamp` — "a formatted
timestamp string". -/
def Record.FormatTimestamp (r : Record) : String := r.timestamp

/-- Modelled from the spec: `Record.GetId` — "a default identifier". -/
def Record.GetId (r : Record) : String := r.id

/-- Modelled from the spec: `Record.FilteredFieldsJSON` — "a filtered
field-set (all fields minus a configured blacklist) serializable to a
generic document representation". -/
def Record.FilteredFieldsJSON (r : Record) (blacklist : List String) :
    List (String × String) :=
  r.fields.filter (fun f => !(blacklist.contains f.1))

/-- The sink configuration (`Config`, declared outside the provided
sources; field names taken from their uses in `elasticsearch.go`, their
meanings from the spec's configuration surface). `BulkTimeout` and the
logger only govern effects outside the embedded logic and are omitted. -/
structure Config where
  Host : String
  /-- the optional collection-name (index) prefix override -/
  Index : String
  /-- the optional column used to compute the collection-name suffix -/
  IndexColumn : String
  /-- the optional column used to override the document identifier -/
  DocIDColumn : String
  /-- the blacklisted field names excluded from the written document -/
  BlacklistedColumns : List String
  deriving DecidableEq, Repr

/-- `recordDatabase.getDatabaseIndex` (elasticsearch.go:103-121): the
prefix is `config.Index`, or the record's topic when it is empty; the
suffix is the formatted timestamp, overridden by the value of
`config.IndexColumn` on the record when that column is configured. -/
def getDatabaseIndex (config : Config) (record : Record) : Except Err String :=
  let indexPrefix := if config.Index = "" then record.topic else config.Index
  let indexSuffix := record.FormatTimestamp
  if config.IndexColumn ≠ "" then
    match record.GetValueForField config.IndexColumn with
    | Except.error e => Except.error e
    | Except.ok newIndexSuffix =>
        Except.ok (indexPrefix ++ "-" ++ newIndexSuffix)
  else
    Except.ok (indexPrefix ++ "-" ++ indexSuffix)

/-- `recordDatabase.getDatabaseDocID` (elasticsearch.go:123-136): the
record's default id, overridden by the value of `config.DocIDColumn` on
the record when that column is configured. -/
def getDatabaseDocID (config : Config) (record : Record) : Except Err String :=
  let docID := record.GetId
  if config.DocIDColumn ≠ "" then
    match record.GetValueForField config.DocIDColumn with
    | Except.error e => Except.error e
    | Except.ok newDocID => Except.ok newDocID
  else
    Except.ok docID

/-- One entry of the bulk request
(`elastic.NewBulkIndexRequest().Index(index).Type(record.Topic).Id(docID).Doc(...)`). -/
structure BulkIndexRequest where
  index : String
  type : String
  id : String
  doc : List (String × String)
  deriving DecidableEq, Repr

/-- `recordDatabase.buildBulkRequest` (elasticsearch.go:82-101): derive
index and doc id for each record in order, aborting on the first
derivation error; on success every record contributes one bulk index
request carrying its blacklist-filtered fields. -/
def buildBulkRequest (config : Config) :
    List Record → Except Err (List BulkIndexRequest)
  | [] => Except.ok []
  | record :: rest =>
    match getDatabaseIndex config record with
    | Except.error e => Except.error e
    | Except.ok index =>
      match getDatabaseDocID config record with
      | Except.error e => Except.error e
      | Except.ok docID =>
        match buildBulkRequest config rest with
        | Except.error e => Except.error e
        | Except.ok reqs =>
          Except.ok ({ index := index, type := record.topic, id := docID,
                       doc := record.FilteredFieldsJSON config.BlacklistedColumns } :: reqs)

/-- The bulk response of the datastore client: the `Errors` flag and the
error descriptions of the `Failed()` items, in order. -/
structure BulkResponse where
  Errors : Bool
  Failed : List String
  deriving DecidableEq, Repr

/-- The outcome of one `Insert` call: which bulk request (if any) was
submitted to the datastore, and the returned error (if any). -/
structure InsertOutcome where
  submitted : Option (List BulkIndexRequest)
  result : Option Err
  deriving DecidableEq, Repr

/-- `recordDatabase.Insert` (elasticsearch.go:52-70).  `doBulk` models
`bulkRequest.Do(ctx)`: a transport error, or a bulk response.  If
building the bulk request fails, that error is returned and nothing is
submitted.  Otherwise the request is submitted; a transport error is
propagated; when the response's `Errors` flag is set, the `for` loop
over `res.Failed()` returns an error for the first failed item (and
returns `nil` when `Failed` is empty, since the loop body never runs). -/
def Insert (config : Config)
    (doBulk : List BulkIndexRequest → Except String BulkResponse)
    (records : List Record) : InsertOutcome :=
  match buildBulkRequest config records with
  | Except.error e => { submitted := none, result := some e }
  | Except.ok reqs =>
    match doBulk reqs with
    | Except.error msg =>
        { submitted := some reqs, result := some (Err.WriteError msg) }
    | Except.ok res =>
        { submitted := some reqs,
          result := if res.Errors then res.Failed.head?.map Err.ItemFailure
                    else none }

/-- The ping response info consumed by `ReadinessCheck`
(`info.Version.Number`). -/
structure PingInfo where
  versionNumber : String
  deriving DecidableEq, Repr

/-- `recordDatabase.ReadinessCheck` (elasticsearch.go:72-80).  `ping`
models `GetClient().Ping(host).Do(ctx)`.  Returns the boolean outcome
together with the log lines emitted. -/
def ReadinessCheck (ping : Except String PingInfo) : Bool × List String :=
  match ping with
  | Except.error err =>
      (false, ["err: " ++ err ++ ", message: error pinging elasticsearch"])
  | Except.ok info =>
      (true, ["message: connected to es version " ++ info.versionNumber])

/-- The shared `esClient` package-level variable: `none` models `nil`
(DISCONNECTED), `some c` a live client handle (CONNECTED). -/
abbrev ESState := Option Nat

/-- The result of `GetClient`: either the process panics (fatal), or a
client handle is returned together with the new `esClient` state. -/
inductive GetClientResult where
  | fatal
  | ok (client : Nat) (state : ESState)
  deriving DecidableEq, Repr

/-- `recordDatabase.GetClient` (elasticsearch.go:33-43).  `newClient`
models `elastic.NewClient(...)`: either a fresh handle or a construction
error.  When `esClient` is `nil` a connect is attempted — failure
panics, success stores and returns the new handle; otherwise the stored
handle is returned untouched. -/
def GetClient (newClient : Except String Nat) (s : ESState) : GetClientResult :=
  match s with
  | none =>
    match newClient with
    | Except.error _ => GetClientResult.fatal
    | Except.ok c => GetClientResult.ok c (some c)
  | some c => GetClientResult.ok c (some c)

/-- `recordDatabase.CloseClient` (elasticsearch.go:45-50): stops the
client when one exists and resets `esClient` to `nil`; from any state
the resulting state is `nil`. -/
def CloseClient (s : ESState) : ESState :=
  match s with
  | none => none
  | some _ => none

/-! ## Spec-side characterisations (from the spec's words, for refinement) -/

/-- From the spec's words, for comparison with `getDatabaseIndex`:
"prefix = configured prefix, or the record's topic if prefix is unset.
suffix = record's formatted timestamp, UNLESS a column name is configured
for suffix derivation, in which case suffix = value of that named field
on the record (fails with `FieldNotFound` if the record lacks that
field). result = `<prefix>-<suffix>`." -/
def specCollectionName (config : Config) (record : Record) : Except Err String :=
  let pfx := if config.Index = "" then record.topic else config.Index
  if config.IndexColumn = "" then
    Except.ok (pfx ++ "-" ++ record.FormatTimestamp)
  else
    match record.fields.lookup config.IndexColumn with
    | some v => Except.ok (pfx ++ "-" ++ v)
    | none => Except.error (Err.FieldNotFound config.IndexColumn)

/-- From the spec's words, for comparison with `getDatabaseDocID`:
"key = record's default identifier, UNLESS a column name is configured
for key derivation, in which case key = value of that named field
(fails with `FieldNotFound` if absent)." -/
def specDocumentKey (config : Config) (record : Record) : Except Err String :=
  if config.DocIDColumn = "" then
    Except.ok record.GetId
  else
    match record.fields.lookup config.DocIDColumn with
    | some v => Except.ok v
    | none => Except.error (Err.FieldNotFound config.DocIDColumn)

/-! ## Theorems -/

/-- **C1.** For every record and configuration, the derived collection
(index) name equals `"<prefix>-<suffix>"`, where the prefix is the
configured prefix, or the record's topic when the configured prefix is
empty; and the suffix is the record's formatted timestamp, unless a
suffix column is configured, in which case it is the value of that named
field on the record, failing with `FieldNotFound` when the record lacks
that field. -/
theorem getDatabaseIndex_eq_specCollectionName (config : Config) (record : Record) :
    getDatabaseIndex config record = specCollectionName config record := by
  unfold getDatabaseIndex specCollectionName Record.GetValueForField
  by_cases hc : config.IndexColumn = "" <;>
    simp [hc] <;>
    cases record.fields.lookup config.IndexColumn <;> simp

/-- **C2.** For every record and configuration, the derived document key
equals the record's default identifier, unless a document-key column is
configured (non-empty), in which case the key equals the value of that
named field on the record, failing with `FieldNotFound` when that field
is absent. -/
theorem getDatabaseDocID_eq_specDocumentKey (config : Config) (record : Record) :
    getDatabaseDocID config record = specDocumentKey config record := by
  unfold getDatabaseDocID specDocumentKey Record.GetValueForField
  by_cases hc : config.DocIDColumn = "" <;>
    simp [hc] <;>
    cases record.fields.lookup config.DocIDColumn <;> simp

/-- **C8.** Collection-name and document-key derivation are pure
functions of the record and the configuration: deriving twice yields
identical results (same collection name, same key, same error
outcome). -/
theorem derivation_idempotent (config : Config) (record : Record) :
    (getDatabaseIndex config record, getDatabaseDocID config record)
      = (getDatabaseIndex config record, getDatabaseDocID config record) := rfl

/-- **C9.** When `Insert` is called with an empty sequence of records,
derivation trivially succeeds and the bulk call to the datastore is
still issued: an empty bulk request is submitted rather than returning
early. -/
theorem Insert_empty_submits (config : Config)
    (doBulk : List BulkIndexRequest → Except String BulkResponse) :
    buildBulkRequest config [] = Except.ok []
      ∧ (Insert config doBulk []).submitted = some [] := by
  refine ⟨rfl, ?_⟩
  unfold Insert buildBulkRequest
  cases h : doBulk [] <;> simp [h]

/-- **C3.** For every batch of records, if collection-name or
document-key derivation fails for any record in the batch (i.e. building
the bulk request fails), `Insert` returns that derivation error and no
bulk write request is submitted to the datastore. -/
theorem Insert_derivation_error_aborts (config : Config)
    (doBulk : List BulkIndexRequest → Except String BulkResponse)
    (records : List Record) (e : Err)
    (h : buildBulkRequest config records = Except.error e) :
    Insert config doBulk records = { submitted := none, result := some e } := by
  unfold Insert
  rw [h]

/-- Witness for C3: with `indexColumn = "missing_field"` configured and a
record lacking that field, `Insert` returns `FieldNotFound` and submits
nothing. -/
theorem Insert_derivation_error_aborts_witness :
    Insert { Host := "http://localhost:9200", Index := "", IndexColumn := "missing_field",
             DocIDColumn := "", BlacklistedColumns := [] }
        (fun _ => Except.ok { Errors := false, Failed := [] })
        [{ topic := "orders", timestamp := "2024-01-01", id := "42", fields := [] }]
      = { submitted := none, result := some (Err.FieldNotFound "missing_field") } :=
  Insert_derivation_error_aborts _ _ _ _ rfl

/-- **C4.** For every `Insert` call whose bulk write succeeds at the
transport level but whose response reports one or more per-item
failures, `Insert` returns an error describing only the first reported
item failure; the remaining failures (`rest`) do not influence the
result. -/
theorem Insert_reports_first_item_failure (config : Config)
    (doBulk : List BulkIndexRequest → Except String BulkResponse)
    (records : List Record) (reqs : List BulkIndexRequest)
    (f : String) (rest : List String)
    (h1 : buildBulkRequest config records = Except.ok reqs)
    (h2 : doBulk reqs = Except.ok { Errors := true, Failed := f :: rest }) :
    Insert config doBulk records
      = { submitted := some reqs, result := some (Err.ItemFailure f) } := by
  unfold Insert
  simp [h1, h2]

/-- Witness for C4: a bulk write reporting two failed items makes
`Insert` return an error referencing only the first one. -/
theorem Insert_reports_first_item_failure_witness :
    Insert { Host := "http://localhost:9200", Index := "", IndexColumn := "",
             DocIDColumn := "", BlacklistedColumns := [] }
        (fun _ => Except.ok { Errors := true, Failed := ["fail1", "fail2"] })
        []
      = { submitted := some [], result := some (Err.ItemFailure "fail1") } :=
  Insert_reports_first_item_failure _ _ _ _ _ _ rfl rfl

/-- **C10.** If the bulk write succeeds at the transport level and the
response's `Errors` flag is set but the list of failed items is empty,
`Insert` returns success (no error surfaced to the caller). -/
theorem Insert_errors_flag_empty_failed (config : Config)
    (doBulk : List BulkIndexRequest → Except String BulkResponse)
    (records : List Record) (reqs : List BulkIndexRequest)
    (h1 : buildBulkRequest config records = Except.ok reqs)
    (h2 : doBulk reqs = Except.ok { Errors := true, Failed := [] }) :
    (Insert config doBulk records).result = none := by
  unfold Insert
  simp [h1, h2]

/-- Witness for C10: a response with the error flag set but no failed
items yields a successful `Insert`. -/
theorem Insert_errors_flag_empty_failed_witness :
    (Insert { Host := "http://localhost:9200", Index := "", IndexColumn := "",
              DocIDColumn := "", BlacklistedColumns := [] }
        (fun _ => Except.ok { Errors := true, Failed := [] })
        []).result = none :=
  Insert_errors_flag_empty_failed _ _ _ _ rfl rfl

/-- **C5.** `ReadinessCheck` never propagates an error to the caller:
for every outcome of the ping call it returns a boolean — `false` (after
logging the error) when the ping fails, and `true` (after logging the
reported datastore version) when the ping succeeds. -/
theorem ReadinessCheck_total :
    (∀ e : String, ReadinessCheck (Except.error e)
        = (false, ["err: " ++ e ++ ", message: error pinging elasticsearch"]))
    ∧ (∀ info : PingInfo, ReadinessCheck (Except.ok info)
        = (true, ["message: connected to es version " ++ info.versionNumber])) :=
  ⟨fun _ => rfl, fun _ => rfl⟩

/-- **C6.** The connection lifecycle is a two-state machine: from
DISCONNECTED (`esClient = nil`), a use attempts to connect — success
stores the handle (CONNECTED) and returns it, failure is fatal; from
CONNECTED the stored handle is reused unchanged, with at most one live
connection; an explicit close returns to DISCONNECTED from any state,
and a subsequent use behaves exactly like a first use (re-triggers
connect). -/
theorem connection_lifecycle :
    (∀ c : Nat, GetClient (Except.ok c) none = GetClientResult.ok c (some c))
    ∧ (∀ e : String, GetClient (Except.error e) none = GetClientResult.fatal)
    ∧ (∀ (newClient : Except String Nat) (c : Nat),
        GetClient newClient (some c) = GetClientResult.ok c (some c))
    ∧ (∀ s : ESState, CloseClient s = none)
    ∧ (∀ (newClient : Except String Nat) (s : ESState),
        GetClient newClient (CloseClient s) = GetClient newClient none) := by
  refine ⟨fun c => rfl, fun e => rfl, fun nc c => rfl, fun s => ?_, fun nc s => ?_⟩
  · cases s <;> rfl
  · cases s <;> rfl

/-- Membership in the blacklist-filtered field set: a field survives the
filter exactly when it is on the record and its name is not
blacklisted. -/
lemma mem_FilteredFieldsJSON (r : Record) (blacklist : List String)
    (f : String × String) :
    f ∈ r.FilteredFieldsJSON blacklist ↔ f ∈ r.fields ∧ f.1 ∉ blacklist := by
  simp [Record.FilteredFieldsJSON, List.mem_filter]

/-- Every bulk index request produced by `buildBulkRequest` carries the
blacklist-filtered field set of one of the input records. -/
lemma buildBulkRequest_ok_mem (config : Config) (records : List Record)
    (reqs : List BulkIndexRequest)
    (h : buildBulkRequest config records = Except.ok reqs) :
    ∀ req ∈ reqs, ∃ r, r ∈ records
      ∧ req.doc = r.FilteredFieldsJSON config.BlacklistedColumns := by
  induction records generalizing reqs with
  | nil =>
    unfold buildBulkRequest at h
    injection h with h
    subst h
    intro req hreq
    simp at hreq
  | cons r rest ih =>
    unfold buildBulkRequest at h
    cases hix : getDatabaseIndex config r with
    | error e => rw [hix] at h; simp at h
    | ok index =>
      rw [hix] at h
      cases hid : getDatabaseDocID config r with
      | error e => rw [hid] at h; simp at h
      | ok docID =>
        rw [hid] at h
        cases hrest : buildBulkRequest config rest with
        | error e => rw [hrest] at h; simp at h
        | ok reqs' =>
          rw [hrest] at h
          simp at h
          subst h
          intro req hreq
          rcases List.mem_cons.mp hreq with hh | hh
          · exact ⟨r, List.mem_cons_self _ _, by rw [hh]⟩
          · obtain ⟨r', hr', hdoc⟩ := ih reqs' hrest req hh
            exact ⟨r', List.mem_cons_of_mem _ hr', hdoc⟩

/-- **C7.** For every record written by `Insert`, the document body
submitted to the datastore is the record's field set minus the
blacklisted field names: it never contains any blacklisted field, and it
contains every non-blacklisted field present on the record. -/
theorem Insert_doc_body_filtered (config : Config)
    (doBulk : List BulkIndexRequest → Except String BulkResponse)
    (records : List Record) (reqs : List BulkIndexRequest)
    (req : BulkIndexRequest)
    (h : (Insert config doBulk records).submitted = some reqs)
    (hreq : req ∈ reqs) :
    ∃ r, r ∈ records
      ∧ req.doc = r.FilteredFieldsJSON config.BlacklistedColumns
      ∧ ∀ f, f ∈ req.doc ↔ (f ∈ r.fields ∧ f.1 ∉ config.BlacklistedColumns) := by
  have hb : buildBulkRequest config records = Except.ok reqs := by
    unfold Insert at h
    cases hbb : buildBulkRequest config records with
    | error e => rw [hbb] at h; simp at h
    | ok reqs' =>
      rw [hbb] at h
      simp at h
      cases hdo : doBulk reqs' with
      | error msg => rw [hdo] at h; simp at h; subst h; rfl
      | ok res => rw [hdo] at h; simp at h; subst h; rfl
  obtain ⟨r, hr, hdoc⟩ := buildBulkRequest_ok_mem config records reqs hb req hreq
  refine ⟨r, hr, hdoc, fun f => ?_⟩
  rw [hdoc]
  exact mem_FilteredFieldsJSON r _ f

/-- Witness for C7: for a record with one blacklisted field (`secret`)
and one regular field (`region`), the submitted document body is exactly
the singleton `region` field. -/
theorem Insert_doc_body_filtered_witness :
    ∃ r, r ∈ [({ topic := "orders", timestamp := "2024-01-01", id := "42",
                 fields := [("region", "us-east"), ("secret", "x")] } : Record)]
      ∧ ({ index := "custom-us-east", type := "orders", id := "42",
           doc := [("region", "us-east")] } : BulkIndexRequest).doc
          = Record.FilteredFieldsJSON
              { topic := "orders", timestamp := "2024-01-01", id := "42",
                fields := [("region", "us-east"), ("secret", "x")] } ["secret"]
      ∧ ∀ f, f ∈ ({ index := "custom-us-east", type := "orders", id := "42",
                    doc := [("region", "us-east")] } : BulkIndexRequest).doc
              ↔ (f ∈ ({ topic := "orders", timestamp := "2024-01-01", id := "42",
                        fields := [("region", "us-east"), ("secret", "x")] } : Record).fields
                  ∧ f.1 ∉ ["secret"]) := by
  have h := Insert_doc_body_filtered
    { Host := "http://localhost:9200", Index := "custom", IndexColumn := "region",
      DocIDColumn := "", BlacklistedColumns := ["secret"] }
    (fun _ => Except.ok { Errors := false, Failed := [] })
    [{ topic := "orders", timestamp := "2024-01-01", id := "42",
       fields := [("region", "us-east"), ("secret", "x")] }]
    [{ index := "custom-us-east", type := "orders", id := "42",
       doc := [("region", "us-east")] }]
    { index := "custom-us-east", type := "orders", id := "42",
      doc := [("region", "us-east")] }
    rfl (by simp)
  simpa using h

end KafkaESInjector
